import Mathlib

/-!
Verification of the placement-lifecycle and snapshot-commit core of the
verigrant repository, as a shallow embedding in Lean 4.

Conventions of the embedding:
* JavaScript numbers that carry chart coordinates and alignment scores are
  modelled as rationals (`ℚ`); values that the code rounds to integers
  (`Math.round`, the int8 clamp) are modelled as `ℤ`.
* JavaScript string primitives used by the code (`toLowerCase`, `trim`,
  `includes`, the `replace(/^@/, "")` strip) are modelled as executable
  functions over the character list of a `String`.
* External dependencies (Redis cache, the Twitter scraper, the generative
  model, image loading, ECDSA recovery, the chain RPC) are modelled as
  environment records whose fields give the outcome of each external call;
  a call that can throw is an `Except`.
* `keccak256` of the canonical placement JSON is modelled symbolically by
  the projection of the placement list that is serialised (username,
  position, isAiPlaced per entry), since two equal projections produce the
  identical JSON string and hence the identical hash; `ethers.ZeroHash` is
  a distinguished constructor.
-/

namespace Verigrant

/-! ### JavaScript primitives -/

/-- Model of `String.prototype.toLowerCase` (per-character lowering; the
code only applies it to ASCII hex addresses and error messages). -/
def jsToLower (s : String) : String := String.mk (s.data.map Char.toLower)

/-- Drops leading whitespace characters of a character list. -/
def dropWhitespaceLeading : List Char → List Char
  | [] => []
  | c :: cs => if c.isWhitespace then dropWhitespaceLeading cs else c :: cs

/-- Model of `String.prototype.trim`: drop whitespace at both ends. -/
def jsTrim (s : String) : String :=
  String.mk ((dropWhitespaceLeading (dropWhitespaceLeading s.data).reverse).reverse)

/-- Whether the character list `s` has `pat` as a contiguous infix. -/
def charsContain (s pat : List Char) : Bool :=
  match s with
  | [] => pat.isEmpty
  | c :: rest => pat.isPrefixOf (c :: rest) || charsContain rest pat

/-- Model of `String.prototype.includes`. -/
def jsIncludes (s pat : String) : Bool := charsContain s.data pat.data

/-- Model of `username.replace(/^@/, "")`: strip one leading `@`. -/
def stripLeadingAt (s : String) : String :=
  match s.data with
  | '@' :: rest => String.mk rest
  | _ => s

/-- Model of `Math.round` on a rational: Lean round-half-up, the floor of
`q + 1/2`, matching JavaScript rounding of halves toward positive
infinity. -/
def jsRound (q : ℚ) : ℤ := Rat.floor (q + 1/2)

/-- The username normalisation `username.trim().replace(/^@/, "")` used
identically in `usePlacements.addPlacement`, `analyseUser` and
`getBestAvatarUrl`. -/
def cleanUsernameOf (username : String) : String := stripLeadingAt (jsTrim username)

/-! ### Data model (src/app/types.ts) -/

/-- Chart position, a pair of percentages (src/app/types.ts `Position`). -/
structure Position where
  x : ℚ
  y : ℚ
deriving DecidableEq

/-- Alignment result emitted by the scoring model
(src/app/actions/analyze-tweets.ts `AlignmentSchema`). -/
structure AlignmentAnalysis where
  explanation : String
  lawfulChaotic : ℚ
  goodEvil : ℚ
deriving DecidableEq

/-- Full analysis result returned by `analyseUser`
(src/app/actions/analyze-tweets.ts `AlignmentAnalysisResult`). -/
structure AlignmentAnalysisResult where
  explanation : String
  lawfulChaotic : ℚ
  goodEvil : ℚ
  cached : Bool
  isError : Bool
  avatarUrl : Option String := none
deriving DecidableEq

/-- One chart entry (src/app/types.ts `Placement`). Optional TypeScript
fields are `Option`; `timestamp` is the creation epoch. -/
structure Placement where
  id : String
  src : String
  position : Position
  isDragging : Bool
  loading : Option Bool
  username : Option String
  analysis : Option AlignmentAnalysis
  isAiPlaced : Option Bool
  timestamp : Nat
deriving DecidableEq

/-! ### src/lib/persona-utils.ts -/

/-- The projection of a placement that is serialised into the report-hash
JSON: `placements.map((p) => ({username, position, isAiPlaced}))`. -/
structure CommittedEntry where
  username : Option String
  position : Position
  isAiPlaced : Option Bool
deriving DecidableEq

/-- Symbolic model of the `bytes32` report hash: `ethers.ZeroHash`, or
`keccak256` of the canonical JSON of the committed entries (represented by
its preimage, since the hash of equal preimages is equal). -/
inductive ReportHash where
  | zero
  | keccakOf (entries : List CommittedEntry)
deriving DecidableEq

/-- Data written to the registry contract (src/lib/persona-utils.ts
`PersonaData`); the two scores are integers after `Math.round` and the
int8 clamp. -/
structure PersonaData where
  lawfulChaotic : ℤ
  goodEvil : ℤ
  reportHash : ReportHash
  primaryTrait : String
deriving DecidableEq

/-- The per-placement projection used for the report hash. -/
def committedEntryOf (p : Placement) : CommittedEntry :=
  { username := p.username, position := p.position, isAiPlaced := p.isAiPlaced }

/-- The reduce `placements.reduce((sum, p) => sum + (p.position.x - 50) * 2, 0)`. -/
def totalLawfulChaotic (placements : List Placement) : ℚ :=
  placements.foldl (fun sum p => sum + (p.position.x - 50) * 2) 0

/-- The reduce `placements.reduce((sum, p) => sum + (p.position.y - 50) * 2, 0)`. -/
def totalGoodEvil (placements : List Placement) : ℚ :=
  placements.foldl (fun sum p => sum + (p.position.y - 50) * 2) 0

/-- The `getTrait` closure inside `processPlacementsForContract`. -/
def getTrait (lc ge : ℚ) : String :=
  let lcThreshold : ℚ := 33
  let geThreshold : ℚ := 33
  let lawfulAxis :=
    if lc ≤ -lcThreshold then "Lawful" else if lc ≥ lcThreshold then "Chaotic" else "Neutral"
  let goodAxis :=
    if ge ≤ -geThreshold then "Good" else if ge ≥ geThreshold then "Evil" else "Neutral"
  if lawfulAxis = "Neutral" ∧ goodAxis = "Neutral" then "True Neutral"
  else if lawfulAxis = "Neutral" then goodAxis ++ " Neutral"
  else if goodAxis = "Neutral" then lawfulAxis ++ " Neutral"
  else lawfulAxis ++ " " ++ goodAxis

/-- src/lib/persona-utils.ts `processPlacementsForContract`. -/
def processPlacementsForContract (placements : List Placement) : PersonaData :=
  if placements.length = 0 then
    { lawfulChaotic := 0, goodEvil := 0, reportHash := ReportHash.zero, primaryTrait := "Neutral" }
  else
    let avgLawfulChaotic : ℤ := jsRound (totalLawfulChaotic placements / placements.length)
    let avgGoodEvil : ℤ := jsRound (totalGoodEvil placements / placements.length)
    let reportHash := ReportHash.keccakOf (placements.map committedEntryOf)
    let primaryTrait := getTrait avgLawfulChaotic avgGoodEvil
    { lawfulChaotic := max (-128) (min 127 avgLawfulChaotic),
      goodEvil := max (-128) (min 127 avgGoodEvil),
      reportHash := reportHash,
      primaryTrait := primaryTrait }

/-! ### src/app/hooks/usePlacements.ts -/

/-- The `alignmentToPosition` helper: `x = ((lc + 100) / 200) * 100`,
`y = ((ge + 100) / 200) * 100`. -/
def alignmentToPosition (analysis : AlignmentAnalysis) : Position :=
  { x := (analysis.lawfulChaotic + 100) / 200 * 100,
    y := (analysis.goodEvil + 100) / 200 * 100 }

/-- The `isUsernameDuplicate` check:
`images.some((img) => img.username?.toLowerCase() === username.toLowerCase())`;
a placement without a username never matches. -/
def isUsernameDuplicate (images : List Placement) (username : String) : Bool :=
  images.any fun img => img.username.map jsToLower == some (jsToLower username)

/-- External inputs of one `addPlacement` run: the `Date.now()` timestamp,
the `getRandomPosition()` draw, the outcome of the `analyseUser` server
action, and the outcome of the `getBestAvatarUrl` promise (an `Except`
because the caller wraps it in try/catch). -/
structure AddPlacementEnv where
  now : Nat
  randomPos : Position
  analyse : String → AlignmentAnalysisResult
  avatar : String → Except Unit String

/-- The optimistic id: `img-${isAiAnalysis ? "ai" : "rand"}-${Date.now()}`. -/
def tempIdFor (isAiAnalysis : Bool) (now : Nat) : String :=
  "img-" ++ (if isAiAnalysis then "ai" else "rand") ++ "-" ++ toString now

/-- The provisional placement inserted optimistically by `addPlacement`. -/
def provisionalPlacement (env : AddPlacementEnv) (isAiAnalysis : Bool)
    (cleanUsername : String) : Placement :=
  { id := tempIdFor isAiAnalysis env.now,
    src := "/grid.svg",
    position := env.randomPos,
    isDragging := false,
    loading := some true,
    username := some cleanUsername,
    analysis := none,
    isAiPlaced := some isAiAnalysis,
    timestamp := env.now }

/-- The `AlignmentAnalysis` part of a full result (the code stores the
whole result object in the placement's `analysis` field). -/
def resultAnalysisOf (r : AlignmentAnalysisResult) : AlignmentAnalysis :=
  { explanation := r.explanation, lawfulChaotic := r.lawfulChaotic, goodEvil := r.goodEvil }

/-- src/app/hooks/usePlacements.ts `addPlacement`, as the transformation it
performs on the placement list once its asynchronous work has settled.
Returns the final list together with the error toasts raised. The AI flow
rolls the provisional placement back (filter by id) when the analysis
result is an error or has a falsy explanation, or when the avatar promise
rejects inside the same try block; the manual flow instead resolves with
the `/x-logo.svg` fallback on avatar failure. -/
def addPlacement (env : AddPlacementEnv) (images : List Placement)
    (username : String) (isAiAnalysis : Bool) : List Placement × List String :=
  let cleanUsername := cleanUsernameOf username
  if cleanUsername = "" then (images, ["Please enter a username."])
  else if isUsernameDuplicate images cleanUsername then
    (images, ["@" ++ cleanUsername ++ " is already on the chart."])
  else
    let tempId := tempIdFor isAiAnalysis env.now
    let withProvisional := images ++ [provisionalPlacement env isAiAnalysis cleanUsername]
    if isAiAnalysis then
      let analysisResult := env.analyse cleanUsername
      if analysisResult.isError = true ∨ analysisResult.explanation = "" then
        (withProvisional.filter (fun img => img.id != tempId),
         ["Analysis failed for @" ++ cleanUsername ++ "."])
      else
        match env.avatar cleanUsername with
        | Except.error _ =>
            (withProvisional.filter (fun img => img.id != tempId),
             ["Analysis failed for @" ++ cleanUsername ++ "."])
        | Except.ok avatarUrl =>
            (withProvisional.map (fun img =>
               if img.id = tempId then
                 { img with src := avatarUrl,
                            position := alignmentToPosition (resultAnalysisOf analysisResult),
                            loading := some false,
                            analysis := some (resultAnalysisOf analysisResult) }
               else img), [])
    else
      match env.avatar cleanUsername with
      | Except.ok avatarUrl =>
          (withProvisional.map (fun img =>
             if img.id = tempId then { img with src := avatarUrl, loading := some false }
             else img), [])
      | Except.error _ =>
          (withProvisional.map (fun img =>
             if img.id = tempId then { img with src := "/x-logo.svg", loading := some false }
             else img),
           ["Could not load avatar for @" ++ cleanUsername ++ "."])

/-! ### src/app/actions/analyze-tweets.ts -/

/-- Profile data returned by the scraper (`ScraperProfile`). -/
structure ScraperProfile where
  name : Option String
  biography : Option String
  location : Option String
  followersCount : Option Nat
  tweetsCount : Option Nat
  avatar : Option String
  profileImageUrlHttps : Option String

/-- One scraped tweet; only the fields that influence control flow are
kept (`text` drives both filters), the engagement numbers default to 0. -/
structure ScraperTweet where
  text : String
  favoriteCount : Option Nat
  retweetCount : Option Nat
  replyCount : Option Nat
  quoteCount : Option Nat
  isQuoteStatus : Option Bool

/-- A thrown JavaScript `Error`: its message and optional HTTP status. -/
structure JsError where
  message : String
  status : Option Int

/-- Outcomes of the external calls made by one `analyseUser` run: the
Redis read (`none` covers both a miss and a swallowed cache error), the
profile fetch, the tweet collection, and the `generateObject` model
invocation. -/
structure AnalyseEnv where
  cached : Option AlignmentAnalysisResult
  profileResult : Except JsError (Option ScraperProfile)
  tweetsResult : Except JsError (List ScraperTweet)
  generate : Except JsError AlignmentAnalysis

/-- JavaScript `a || b` on optional strings (empty string is falsy). -/
def jsOrStr (a b : Option String) : Option String :=
  match a with
  | some s => if s = "" then b else some s
  | none => b

/-- Truthiness of `o?.trim()` negated: blank when absent or whitespace. -/
def jsOptBlank (o : Option String) : Bool :=
  match o with
  | some s => jsTrim s = ""
  | none => true

/-- The fetch-error classification in `analyseUser`'s inner catch. -/
def classifyFetchError (cleanUsername : String) (fetchError : JsError) : String :=
  let message := jsToLower fetchError.message
  if jsIncludes message "login" then
    "Failed to log in to X/Twitter to fetch data. Please check server credentials/configuration."
  else if jsIncludes message "not found" || jsIncludes message "no user"
      || fetchError.status == some 404 then
    "User @" ++ cleanUsername ++ " not found on X/Twitter or their profile is inaccessible."
  else
    "An error occurred while fetching data for @" ++ cleanUsername ++ " from X/Twitter."

/-- The catch-all classification in `analyseUser`'s outer catch. -/
def classifyCriticalError (cleanUsername : String) (e : JsError) : String :=
  if jsIncludes e.message "API key not valid" then
    "AI service API key is invalid or missing."
  else if jsIncludes (jsToLower e.message) "quota" then
    "AI service quota exceeded."
  else
    "Error analyzing tweets for @" ++ cleanUsername ++ ". Please check the username and try again."

/-- The body of `analyseUser` after the cache check: profile fetch, tweet
collection, the insufficient-data short circuit, and the model call, with
every failure converted to a structured error result. -/
def analyseUserUncached (env : AnalyseEnv) (cleanUsername : String) : AlignmentAnalysisResult :=
  match env.profileResult with
  | Except.error fetchError =>
      { lawfulChaotic := 0, goodEvil := 0,
        explanation := classifyFetchError cleanUsername fetchError,
        cached := false, isError := true, avatarUrl := none }
  | Except.ok none =>
      { lawfulChaotic := 0, goodEvil := 0,
        explanation := "Could not retrieve profile for @" ++ cleanUsername ++
          ". The user may be private, non-existent, suspended, or X/Twitter access failed.",
        cached := false, isError := true, avatarUrl := none }
  | Except.ok (some userProfileData) =>
      let fetchedAvatarUrl := jsOrStr userProfileData.avatar userProfileData.profileImageUrlHttps
      match env.tweetsResult with
      | Except.error fetchError =>
          { lawfulChaotic := 0, goodEvil := 0,
            explanation := classifyFetchError cleanUsername fetchError,
            cached := false, isError := true, avatarUrl := fetchedAvatarUrl }
      | Except.ok tweets =>
          let userTweetsData := (tweets.filter (fun t => t.text != "")).take 20
          let aiTweets := userTweetsData.filter (fun t => jsTrim t.text != "")
          if aiTweets.length = 0 && jsOptBlank userProfileData.biography
              && jsOptBlank userProfileData.name then
            { lawfulChaotic := 0, goodEvil := 0,
              explanation := "User @" ++ cleanUsername ++
                " has no public tweets and minimal profile information that could be meaningfully analyzed by AI.",
              cached := false, isError := true, avatarUrl := fetchedAvatarUrl }
          else
            match env.generate with
            | Except.error e =>
                { lawfulChaotic := 0, goodEvil := 0,
                  explanation := classifyCriticalError cleanUsername e,
                  cached := false, isError := true, avatarUrl := none }
            | Except.ok analysisResultData =>
                { explanation := analysisResultData.explanation,
                  lawfulChaotic := analysisResultData.lawfulChaotic,
                  goodEvil := analysisResultData.goodEvil,
                  cached := false, isError := false, avatarUrl := fetchedAvatarUrl }

/-- src/app/actions/analyze-tweets.ts `analyseUser`. Totality of this Lean
function models the server action's guarantee of never throwing past its
boundary: every external-failure path is a structured result. -/
def analyseUser (env : AnalyseEnv) (username : String) : AlignmentAnalysisResult :=
  let cleanUsername := cleanUsernameOf username
  match env.cached with
  | some cachedAnalysisData =>
      if cachedAnalysisData.explanation != "" && !cachedAnalysisData.isError then
        { cachedAnalysisData with cached := true, isError := false }
      else analyseUserUncached env cleanUsername
  | none => analyseUserUncached env cleanUsername

/-- Whether the cache read short-circuits `analyseUser`
(`cachedAnalysisData?.explanation && !cachedAnalysisData.isError`). -/
def cacheHitValid (cached : Option AlignmentAnalysisResult) : Bool :=
  match cached with
  | some c => c.explanation != "" && !c.isError
  | none => false

/-- Whether an external call threw. -/
def exceptFailed {ε α : Type} : Except ε α → Bool
  | Except.error _ => true
  | Except.ok _ => false

/-- Whether an environment hits `analyseUser`'s insufficient-data short
circuit: the profile fetch and tweet collection both succeed, yet the
usable tweet list is empty and the bio and name are both blank — the
exact condition the code tests before invoking the model. -/
def insufficientDataFor (env : AnalyseEnv) : Bool :=
  match env.profileResult, env.tweetsResult with
  | Except.ok (some userProfileData), Except.ok tweets =>
      (((tweets.filter (fun t => t.text != "")).take 20).filter
          (fun t => jsTrim t.text != "")).length = 0
        && jsOptBlank userProfileData.biography && jsOptBlank userProfileData.name
  | _, _ => false

/-! ### src/lib/load-avatar.ts -/

/-- Opaque token standing for a loaded `HTMLImageElement`. -/
structure AvatarImage where
  token : Nat
deriving DecidableEq

/-- Outcomes of the browser calls made by `getBestAvatarUrl`: per-URL
image loading (reject on error or timeout) and the colorfulness
measurement of a loaded image (a count of distinct sampled colors). -/
structure AvatarEnv where
  loadImage : String → Except Unit AvatarImage
  colorfulness : AvatarImage → Nat

/-- The ordered candidate list `[withAtUrl, withoutAtUrl, fallbackUrl]`. -/
def avatarUrlsToTry (cleanUsername : String) : List String :=
  ["https://unavatar.io/twitter/@" ++ cleanUsername,
   "https://unavatar.io/twitter/" ++ cleanUsername,
   "https://unavatar.io/" ++ cleanUsername]

/-- src/lib/load-avatar.ts `getBestAvatarUrl`: fold over the candidates
keeping the most colorful loadable image, starting from
`(fallbackUrl, -1)`; a candidate that fails to load is skipped. -/
def getBestAvatarUrl (env : AvatarEnv) (username : String) : String :=
  let cleanUsername := cleanUsernameOf username
  let fallbackUrl := "https://unavatar.io/" ++ cleanUsername
  ((avatarUrlsToTry cleanUsername).foldl
    (fun best url =>
      match env.loadImage url with
      | Except.error _ => best
      | Except.ok img =>
          let colorfulness : ℤ := env.colorfulness img
          if colorfulness > best.2 then (url, colorfulness) else best)
    (fallbackUrl, (-1 : ℤ))).1

/-- Spec-side rendering of "a local default asset": an app-served asset is
a root-relative path (the repository's local assets are `/grid.svg` and
`/x-logo.svg`), as opposed to a remote URL. Named after the spec's words
for comparison against the code; the code itself has no such notion. -/
def isLocalAssetRef (s : String) : Bool :=
  match s.data with
  | '/' :: _ => true
  | _ => false

/-! ### The commit-snapshot endpoint (src/app/api/persona/commit-snapshot/route.ts) -/

/-- Arguments of one `setPersonaSnapshot` contract invocation. -/
structure ContractCall where
  userAddress : String
  lawfulChaotic : ℤ
  goodEvil : ℤ
  reportHash : ReportHash
  primaryTrait : String
deriving DecidableEq

/-- The JSON responses of the POST handler, tagged by route outcome
(`unauthorized` is status 401, `serverError` 500, `badRequest` 400). -/
inductive CommitResponse where
  | unauthorized (error : String)
  | serverError (error : String)
  | committed (message transactionHash : String)
  | prepared (messageToSign nonce : String)
  | badRequest (error : String)
deriving DecidableEq

/-- Server-side environment of the handler: `ethers.verifyMessage`
recovery (throws on a malformed signature), whether the oracle wallet env
vars are present, the chain submission (`setPersonaSnapshot` + `tx.wait`,
throws on revert or RPC failure) returning the receipt hash, and the
`randomBytes` nonce drawn by a prepare call. The handler keeps NO state
between requests: the source stores nothing tied to an issued nonce
(its own comments mark nonce caching as an optional TODO), which this
record's lack of any nonce store models faithfully. -/
structure CommitEnv where
  recoverAddress : String → String → Except Unit String
  oracleConfigured : Bool
  submitTx : ContractCall → Except Unit String
  freshNonce : String

/-- A parsed POST body, in the order the handler tries the zod schemas:
a body with `signature` and `nonce` is a verify request, else a body with
`placements` and `address` is a prepare request, else invalid. -/
inductive CommitBody where
  | verifyBody (placements : List Placement) (address signature nonce : String)
  | prepareBody (placements : List Placement) (address : String)
  | invalidBody

/-- The fixed message template of both prepare and verify. -/
def messageForNonce (nonce : String) : String :=
  "Sign this message to commit your alignment chart snapshot to the blockchain. Nonce: " ++ nonce

/-- The POST handler of the commit-snapshot route. Returns the response
together with the list of contract writes performed. -/
def handleCommitPost (env : CommitEnv) (body : CommitBody) : CommitResponse × List ContractCall :=
  match body with
  | CommitBody.verifyBody placements address signature nonce =>
      let messageToSign := messageForNonce nonce
      match env.recoverAddress messageToSign signature with
      | Except.error _ => (CommitResponse.serverError "Failed to commit snapshot", [])
      | Except.ok recoveredAddress =>
          if jsToLower recoveredAddress ≠ jsToLower address then
            (CommitResponse.unauthorized "Invalid signature", [])
          else if !env.oracleConfigured then
            (CommitResponse.serverError "Failed to commit snapshot", [])
          else
            let personaData := processPlacementsForContract placements
            let call : ContractCall :=
              { userAddress := address,
                lawfulChaotic := personaData.lawfulChaotic,
                goodEvil := personaData.goodEvil,
                reportHash := personaData.reportHash,
                primaryTrait := personaData.primaryTrait }
            match env.submitTx call with
            | Except.error _ => (CommitResponse.serverError "Failed to commit snapshot", [call])
            | Except.ok receiptHash =>
                (CommitResponse.committed "Snapshot committed on-chain." receiptHash, [call])
  | CommitBody.prepareBody _ _ =>
      (CommitResponse.prepared (messageForNonce env.freshNonce) env.freshNonce, [])
  | CommitBody.invalidBody => (CommitResponse.badRequest "Invalid request payload", [])

/-- A sequence of independent POST requests against the stateless handler,
accumulating every contract write performed. -/
def runCommitRequests (env : CommitEnv) (bodies : List CommitBody) : List ContractCall :=
  bodies.foldl (fun calls body => calls ++ (handleCommitPost env body).2) []

/-! ### Spec-side definitions, for comparison against the code -/

/-- Spec 4.6: lawfulAxis is "Lawful" if lc ≤ -T, "Chaotic" if lc ≥ T,
else "Neutral", with T = 33. Written from the spec's words. -/
def lawfulAxisSpec (lc : ℚ) : String :=
  if lc ≤ -33 then "Lawful" else if 33 ≤ lc then "Chaotic" else "Neutral"

/-- Spec 4.6: goodAxis is "Good" if ge ≤ -T, "Evil" if ge ≥ T, else
"Neutral", with T = 33. Written from the spec's words. -/
def goodAxisSpec (ge : ℚ) : String :=
  if ge ≤ -33 then "Good" else if 33 ≤ ge then "Evil" else "Neutral"

/-- Spec 4.6: both Neutral combines to "True Neutral", exactly one Neutral
to the non-Neutral axis's label followed by " Neutral", otherwise to
"lawfulAxis goodAxis". Written from the spec's words. -/
def getTraitSpec (lc ge : ℚ) : String :=
  if lawfulAxisSpec lc = "Neutral" ∧ goodAxisSpec ge = "Neutral" then "True Neutral"
  else if lawfulAxisSpec lc = "Neutral" then goodAxisSpec ge ++ " Neutral"
  else if goodAxisSpec ge = "Neutral" then lawfulAxisSpec lc ++ " Neutral"
  else lawfulAxisSpec lc ++ " " ++ goodAxisSpec ge

/-- Pointwise agreement on the three fields that the contract reduction
serialises: username, position and isAiPlaced. -/
def CommittedAgree (p q : Placement) : Prop :=
  p.username = q.username ∧ p.position = q.position ∧ p.isAiPlaced = q.isAiPlaced

/-! ### Concrete fixtures used by witnesses and counterexamples -/

/-- A commit environment whose signature recovery succeeds with an address
matching the request and whose chain submission succeeds. -/
def replayEnv : CommitEnv :=
  { recoverAddress := fun _ _ => Except.ok "0xAbCd",
    oracleConfigured := true,
    submitTx := fun _ => Except.ok "0xreceipt",
    freshNonce := "n2" }

/-- One concrete verify request: empty chart, a fixed signature and the
fixed nonce "nonce-1". -/
def replayBody : CommitBody := CommitBody.verifyBody [] "0xabcd" "0xsig" "nonce-1"

/-- The contract write that `replayBody` produces. -/
def replayCall : ContractCall :=
  { userAddress := "0xabcd", lawfulChaotic := 0, goodEvil := 0,
    reportHash := ReportHash.zero, primaryTrait := "Neutral" }

/-- An avatar environment in which every candidate image fails to load. -/
def allFailAvatarEnv : AvatarEnv :=
  { loadImage := fun _ => Except.error (), colorfulness := fun _ => 0 }

/-- A commit environment that recovers the fixed address "0x1111". -/
def mismatchEnv : CommitEnv :=
  { recoverAddress := fun _ _ => Except.ok "0x1111",
    oracleConfigured := true,
    submitTx := fun _ => Except.ok "0xtx",
    freshNonce := "n" }

/-- An analysis environment whose cache misses and whose profile fetch
throws. -/
def fetchFailEnv : AnalyseEnv :=
  { cached := none,
    profileResult := Except.error { message := "boom", status := none },
    tweetsResult := Except.ok [],
    generate := Except.ok { explanation := "e", lawfulChaotic := 1, goodEvil := 2 } }

/-- An analysis environment whose cache misses and whose fetches succeed
but return a profile with no tweets, no bio and no name. -/
def insufficientEnv : AnalyseEnv :=
  { cached := none,
    profileResult := Except.ok (some
      { name := none, biography := none, location := none,
        followersCount := none, tweetsCount := none,
        avatar := none, profileImageUrlHttps := none }),
    tweetsResult := Except.ok [],
    generate := Except.ok { explanation := "e", lawfulChaotic := 1, goodEvil := 2 } }

/-- An add-placement environment whose analysis returns an error result. -/
def aiFailEnv : AddPlacementEnv :=
  { now := 7,
    randomPos := { x := 30, y := 40 },
    analyse := fun _ =>
      { explanation := "nope", lawfulChaotic := 0, goodEvil := 0,
        cached := false, isError := true },
    avatar := fun _ => Except.ok "https://unavatar.io/alice" }

/-- A concrete analysis result with scores (50, -50). -/
def roundtripAnalysis : AlignmentAnalysis :=
  { explanation := "w", lawfulChaotic := 50, goodEvil := -50 }

/-- A placement positioned from `roundtripAnalysis`. -/
def roundtripPlacement : Placement :=
  { id := "p", src := "s", position := alignmentToPosition roundtripAnalysis,
    isDragging := false, loading := none, username := some "u",
    analysis := none, isAiPlaced := some true, timestamp := 0 }

/-- First of two placements agreeing on the committed fields. -/
def agreeLeft : Placement :=
  { id := "a", src := "s1", position := { x := 10, y := 20 },
    isDragging := false, loading := some false, username := some "u",
    analysis := none, isAiPlaced := some false, timestamp := 1 }

/-- Second of two placements agreeing with `agreeLeft` on username,
position and isAiPlaced but differing on every other field. -/
def agreeRight : Placement :=
  { id := "b", src := "s2", position := { x := 10, y := 20 },
    isDragging := true, loading := none, username := some "u",
    analysis := some { explanation := "x", lawfulChaotic := 3, goodEvil := 4 },
    isAiPlaced := some false, timestamp := 2 }

/-- A placement at the chart corner (0, 100). -/
def cornerPlacement : Placement :=
  { id := "c", src := "s", position := { x := 0, y := 100 },
    isDragging := false, loading := none, username := some "u",
    analysis := none, isAiPlaced := some false, timestamp := 0 }

/-! ### Helper lemmas -/

/-- The JavaScript rounding is the floor of the argument plus one half. -/
theorem jsRound_eq (q : ℚ) : jsRound q = ⌊q + 1/2⌋ := rfl

/-- Rounding moves a rational by at most one half. -/
theorem jsRound_dist (q : ℚ) : |(jsRound q : ℚ) - q| ≤ 1/2 := by
  rw [jsRound_eq, abs_le]
  have h1 := Int.floor_le (q + 1/2)
  have h2 := Int.lt_floor_add_one (q + 1/2)
  constructor <;> linarith

/-- Rounding below an integer bound stays below it. -/
theorem jsRound_le_of_le {q : ℚ} {n : ℤ} (h : q ≤ n) : jsRound q ≤ n := by
  rw [jsRound_eq]
  have : ⌊q + 1/2⌋ ≤ ⌊(n : ℚ) + 1/2⌋ := Int.floor_mono (by linarith)
  have hn : ⌊(n : ℚ) + 1/2⌋ = n + ⌊(1/2 : ℚ)⌋ := Int.floor_int_add n (1/2)
  have : ⌊(1/2 : ℚ)⌋ = 0 := by norm_num
  omega

/-- Rounding above an integer bound stays above it. -/
theorem le_jsRound_of_le {n : ℤ} {q : ℚ} (h : (n : ℚ) ≤ q) : n ≤ jsRound q := by
  rw [jsRound_eq]
  exact Int.le_floor.mpr (by linarith)

/-- Upper bound of the score folds: when each contribution is at most `c`,
the fold from `a` is at most `a + c * length`. -/
theorem foldl_add_le (f : Placement → ℚ) (c : ℚ) :
    ∀ (l : List Placement) (a : ℚ), (∀ p ∈ l, f p ≤ c) →
      List.foldl (fun s p => s + f p) a l ≤ a + c * l.length := by
  intro l
  induction l with
  | nil => intro a _; simp
  | cons p t ih =>
      intro a h
      have h1 : f p ≤ c := h p (by simp)
      have h2 := ih (a + f p) (fun q hq => h q (by simp [hq]))
      simp only [List.foldl_cons, List.length_cons]
      push_cast
      push_cast at h2
      linarith

/-- Lower bound of the score folds, symmetric to `foldl_add_le`. -/
theorem le_foldl_add (f : Placement → ℚ) (c : ℚ) :
    ∀ (l : List Placement) (a : ℚ), (∀ p ∈ l, c ≤ f p) →
      a + c * l.length ≤ List.foldl (fun s p => s + f p) a l := by
  intro l
  induction l with
  | nil => intro a _; simp
  | cons p t ih =>
      intro a h
      have h1 : c ≤ f p := h p (by simp)
      have h2 := ih (a + f p) (fun q hq => h q (by simp [hq]))
      simp only [List.foldl_cons, List.length_cons]
      push_cast
      push_cast at h2
      linarith

/-- On a non-empty chart, the committed lawful–chaotic score is the clamp
of the rounded average. -/
theorem process_lawful_of_ne_nil (placements : List Placement) (h : placements ≠ []) :
    (processPlacementsForContract placements).lawfulChaotic =
      max (-128) (min 127 (jsRound (totalLawfulChaotic placements / placements.length))) := by
  rw [processPlacementsForContract, if_neg (by simpa using h)]

/-- On a non-empty chart, the committed good–evil score is the clamp of
the rounded average. -/
theorem process_good_of_ne_nil (placements : List Placement) (h : placements ≠ []) :
    (processPlacementsForContract placements).goodEvil =
      max (-128) (min 127 (jsRound (totalGoodEvil placements / placements.length))) := by
  rw [processPlacementsForContract, if_neg (by simpa using h)]

/-! ### Claim theorems -/

/-- C1: the claim says a nonce is single-use — after one verify call using
a given nonce/signature pair has produced a contract write, a second
verify call presenting the same pair must not produce another write. The
handler is stateless (it stores nothing at prepare and checks nothing at
verify beyond the signature itself), so replaying the identical verify
request produces a second successful contract write: the first conjunct
shows the request is accepted, the second shows two identical requests
yield two writes. This evaluates the code at the failing input and
refutes the replay-protection property. -/
theorem commit_nonce_replay_writes_twice :
    (handleCommitPost replayEnv replayBody).1 =
      CommitResponse.committed "Snapshot committed on-chain." "0xreceipt" ∧
    runCommitRequests replayEnv [replayBody, replayBody] = [replayCall, replayCall] :=
  ⟨rfl, rfl⟩

/-- C2: when the address recovered from the signature over the
reconstructed nonce message does not case-insensitively equal the supplied
address, the verify branch answers 401 "Invalid signature" and performs no
contract call. -/
theorem commit_verify_mismatch_unauthorized (env : CommitEnv)
    (placements : List Placement) (address signature nonce recovered : String)
    (hrec : env.recoverAddress (messageForNonce nonce) signature = Except.ok recovered)
    (hne : jsToLower recovered ≠ jsToLower address) :
    handleCommitPost env (CommitBody.verifyBody placements address signature nonce) =
      (CommitResponse.unauthorized "Invalid signature", []) := by
  simp only [handleCommitPost, hrec]
  rw [if_pos hne]

/-- Witness for C2 at a concrete mismatching request. -/
theorem commit_verify_mismatch_unauthorized_witness :
    handleCommitPost mismatchEnv (CommitBody.verifyBody [] "0x2222" "0xsig" "nonce") =
      (CommitResponse.unauthorized "Invalid signature", []) :=
  commit_verify_mismatch_unauthorized mismatchEnv [] "0x2222" "0xsig" "nonce" "0x1111"
    rfl (by decide)

/-- C6: on the band [-100, 100] the code's trait derivation agrees with
the spec's threshold rule (T = 33, axis labels combined with the
True-Neutral / single-Neutral / pair rule), and the four quoted examples
compute as the claim states. -/
theorem getTrait_matches_spec :
    (∀ lc ge : ℚ, -100 ≤ lc → lc ≤ 100 → -100 ≤ ge → ge ≤ 100 →
      getTrait lc ge = getTraitSpec lc ge) ∧
    getTrait (-50) (-50) = "Lawful Good" ∧
    getTrait 0 0 = "True Neutral" ∧
    getTrait 50 0 = "Chaotic Neutral" ∧
    getTrait 0 50 = "Evil Neutral" := by
  refine ⟨fun lc ge _ _ _ _ => rfl, ?_, ?_, ?_, ?_⟩ <;> (norm_num [getTrait]) <;> decide

/-- Witness for C6, instantiating the quantified part at (-50, -50). -/
theorem getTrait_matches_spec_witness :
    getTrait (-50) (-50) = getTraitSpec (-50) (-50) :=
  getTrait_matches_spec.1 (-50) (-50) (by norm_num) (by norm_num) (by norm_num) (by norm_num)

/-- C7: the empty placement array reduces to exactly scores (0, 0), the
zero hash and the trait "Neutral". -/
theorem processPlacements_empty :
    processPlacementsForContract [] =
      { lawfulChaotic := 0, goodEvil := 0, reportHash := ReportHash.zero,
        primaryTrait := "Neutral" } := rfl

/-- C8, counterexample: the claim says that when every candidate avatar
URL fails to load, the resolver returns a local default asset. In the
code, `bestUrl` is initialised to the remote `fallbackUrl` and is left
unchanged when every `loadImage` rejects, so the result is the remote
`https://unavatar.io/alice` — not a root-relative app asset such as the
`/x-logo.svg` or `/grid.svg` used elsewhere as local fallbacks. -/
theorem getBestAvatarUrl_total_failure_not_local :
    getBestAvatarUrl allFailAvatarEnv "alice" = "https://unavatar.io/alice" ∧
    isLocalAssetRef (getBestAvatarUrl allFailAvatarEnv "alice") = false ∧
    getBestAvatarUrl allFailAvatarEnv "alice" ≠ "/x-logo.svg" ∧
    getBestAvatarUrl allFailAvatarEnv "alice" ≠ "/grid.svg" := by
  refine ⟨rfl, rfl, ?_, ?_⟩ <;> decide

/-- C8, amended: when every candidate avatar URL fails to load, the
resolver returns the bare remote fallback `https://unavatar.io/<username>`
(the third candidate), which is also the fold's initial value. -/
theorem getBestAvatarUrl_total_failure_fallback (env : AvatarEnv) (username : String)
    (hfail : ∀ url, env.loadImage url = Except.error ()) :
    getBestAvatarUrl env username = "https://unavatar.io/" ++ cleanUsernameOf username := by
  simp [getBestAvatarUrl, avatarUrlsToTry, hfail]

/-- Witness for the amended C8 at the all-failing environment. -/
theorem getBestAvatarUrl_total_failure_fallback_witness :
    getBestAvatarUrl allFailAvatarEnv "bob" = "https://unavatar.io/" ++ cleanUsernameOf "bob" :=
  getBestAvatarUrl_total_failure_fallback allFailAvatarEnv "bob" (fun _ => rfl)

/-- C5: converting scores in [-100, 100] to a chart position with
`alignmentToPosition` and reducing the single-placement chart with
`processPlacementsForContract` recovers both scores within rounding
tolerance (at most one half). -/
theorem alignment_position_roundtrip (a : AlignmentAnalysis) (p : Placement)
    (hlc₁ : -100 ≤ a.lawfulChaotic) (hlc₂ : a.lawfulChaotic ≤ 100)
    (hge₁ : -100 ≤ a.goodEvil) (hge₂ : a.goodEvil ≤ 100)
    (hp : p.position = alignmentToPosition a) :
    |((processPlacementsForContract [p]).lawfulChaotic : ℚ) - a.lawfulChaotic| ≤ 1/2 ∧
    |((processPlacementsForContract [p]).goodEvil : ℚ) - a.goodEvil| ≤ 1/2 := by
  have hx : p.position.x = (a.lawfulChaotic + 100) / 200 * 100 := by rw [hp]; rfl
  have hy : p.position.y = (a.goodEvil + 100) / 200 * 100 := by rw [hp]; rfl
  have hTLC : totalLawfulChaotic [p] = a.lawfulChaotic := by
    simp only [totalLawfulChaotic, List.foldl_cons, List.foldl_nil, hx]; ring
  have hTGE : totalGoodEvil [p] = a.goodEvil := by
    simp only [totalGoodEvil, List.foldl_cons, List.foldl_nil, hy]; ring
  have hlen : ((([p] : List Placement).length : ℚ)) = 1 := by simp
  have havgL : totalLawfulChaotic [p] / (([p] : List Placement).length : ℚ) = a.lawfulChaotic := by
    rw [hTLC, hlen, div_one]
  have havgG : totalGoodEvil [p] / (([p] : List Placement).length : ℚ) = a.goodEvil := by
    rw [hTGE, hlen, div_one]
  have hneq : ([p] : List Placement) ≠ [] := by simp
  have hbL1 : (-100 : ℤ) ≤ jsRound a.lawfulChaotic := le_jsRound_of_le (by push_cast; linarith)
  have hbL2 : jsRound a.lawfulChaotic ≤ (100 : ℤ) := jsRound_le_of_le (by push_cast; linarith)
  have hbG1 : (-100 : ℤ) ≤ jsRound a.goodEvil := le_jsRound_of_le (by push_cast; linarith)
  have hbG2 : jsRound a.goodEvil ≤ (100 : ℤ) := jsRound_le_of_le (by push_cast; linarith)
  have hclampL : max (-128) (min 127 (jsRound a.lawfulChaotic)) = jsRound a.lawfulChaotic := by
    omega
  have hclampG : max (-128) (min 127 (jsRound a.goodEvil)) = jsRound a.goodEvil := by
    omega
  constructor
  · rw [process_lawful_of_ne_nil _ hneq, havgL, hclampL]; exact jsRound_dist _
  · rw [process_good_of_ne_nil _ hneq, havgG, hclampG]; exact jsRound_dist _

/-- Witness for C5 at a placement derived from scores (50, -50). -/
theorem alignment_position_roundtrip_witness :
    |((processPlacementsForContract [roundtripPlacement]).lawfulChaotic : ℚ) -
        roundtripAnalysis.lawfulChaotic| ≤ 1/2 ∧
    |((processPlacementsForContract [roundtripPlacement]).goodEvil : ℚ) -
        roundtripAnalysis.goodEvil| ≤ 1/2 :=
  alignment_position_roundtrip roundtripAnalysis roundtripPlacement
    (by norm_num [roundtripAnalysis]) (by norm_num [roundtripAnalysis])
    (by norm_num [roundtripAnalysis]) (by norm_num [roundtripAnalysis]) rfl

/-- C10: on any non-empty chart whose positions all lie in the
[0,100]x[0,100] square, the rounded average scores already lie in
[-100, 100], so the int8 clamp leaves both committed scores unchanged. -/
theorem processPlacements_clamp_noop (placements : List Placement)
    (hne : placements ≠ [])
    (hb : ∀ p ∈ placements, 0 ≤ p.position.x ∧ p.position.x ≤ 100 ∧
          0 ≤ p.position.y ∧ p.position.y ≤ 100) :
    ((-100 ≤ jsRound (totalLawfulChaotic placements / placements.length) ∧
      jsRound (totalLawfulChaotic placements / placements.length) ≤ 100) ∧
     (-100 ≤ jsRound (totalGoodEvil placements / placements.length) ∧
      jsRound (totalGoodEvil placements / placements.length) ≤ 100)) ∧
    (processPlacementsForContract placements).lawfulChaotic =
      jsRound (totalLawfulChaotic placements / placements.length) ∧
    (processPlacementsForContract placements).goodEvil =
      jsRound (totalGoodEvil placements / placements.length) := by
  have hlen0 : placements.length ≠ 0 := fun h => hne (List.length_eq_zero.mp h)
  have hlenQ : (0 : ℚ) < (placements.length : ℚ) := by
    exact_mod_cast Nat.pos_of_ne_zero hlen0
  have hupL : totalLawfulChaotic placements ≤ 100 * placements.length := by
    have := foldl_add_le (fun p => (p.position.x - 50) * 2) 100 placements 0
      (fun p hp => by obtain ⟨h1, h2, _, _⟩ := hb p hp; dsimp only; linarith)
    simpa [totalLawfulChaotic] using this
  have hloL : (-100 : ℚ) * placements.length ≤ totalLawfulChaotic placements := by
    have := le_foldl_add (fun p => (p.position.x - 50) * 2) (-100) placements 0
      (fun p hp => by obtain ⟨h1, h2, _, _⟩ := hb p hp; dsimp only; linarith)
    simpa [totalLawfulChaotic] using this
  have hupG : totalGoodEvil placements ≤ 100 * placements.length := by
    have := foldl_add_le (fun p => (p.position.y - 50) * 2) 100 placements 0
      (fun p hp => by obtain ⟨_, _, h3, h4⟩ := hb p hp; dsimp only; linarith)
    simpa [totalGoodEvil] using this
  have hloG : (-100 : ℚ) * placements.length ≤ totalGoodEvil placements := by
    have := le_foldl_add (fun p => (p.position.y - 50) * 2) (-100) placements 0
      (fun p hp => by obtain ⟨_, _, h3, h4⟩ := hb p hp; dsimp only; linarith)
    simpa [totalGoodEvil] using this
  have havgL1 : ((-100 : ℤ) : ℚ) ≤ totalLawfulChaotic placements / placements.length := by
    rw [le_div_iff₀ hlenQ]; push_cast; linarith
  have havgL2 : totalLawfulChaotic placements / placements.length ≤ ((100 : ℤ) : ℚ) := by
    rw [div_le_iff₀ hlenQ]; push_cast; linarith
  have havgG1 : ((-100 : ℤ) : ℚ) ≤ totalGoodEvil placements / placements.length := by
    rw [le_div_iff₀ hlenQ]; push_cast; linarith
  have havgG2 : totalGoodEvil placements / placements.length ≤ ((100 : ℤ) : ℚ) := by
    rw [div_le_iff₀ hlenQ]; push_cast; linarith
  have hrL1 := le_jsRound_of_le havgL1
  have hrL2 := jsRound_le_of_le havgL2
  have hrG1 := le_jsRound_of_le havgG1
  have hrG2 := jsRound_le_of_le havgG2
  refine ⟨⟨⟨hrL1, hrL2⟩, hrG1, hrG2⟩, ?_, ?_⟩
  · rw [process_lawful_of_ne_nil _ hne]; omega
  · rw [process_good_of_ne_nil _ hne]; omega

/-- Witness for C10 at the singleton chart holding the corner placement
(0, 100). -/
theorem processPlacements_clamp_noop_witness :
    ((-100 ≤ jsRound (totalLawfulChaotic [cornerPlacement] / ([cornerPlacement] : List Placement).length) ∧
      jsRound (totalLawfulChaotic [cornerPlacement] / ([cornerPlacement] : List Placement).length) ≤ 100) ∧
     (-100 ≤ jsRound (totalGoodEvil [cornerPlacement] / ([cornerPlacement] : List Placement).length) ∧
      jsRound (totalGoodEvil [cornerPlacement] / ([cornerPlacement] : List Placement).length) ≤ 100)) ∧
    (processPlacementsForContract [cornerPlacement]).lawfulChaotic =
      jsRound (totalLawfulChaotic [cornerPlacement] / ([cornerPlacement] : List Placement).length) ∧
    (processPlacementsForContract [cornerPlacement]).goodEvil =
      jsRound (totalGoodEvil [cornerPlacement] / ([cornerPlacement] : List Placement).length) :=
  processPlacements_clamp_noop [cornerPlacement] (by simp)
    (by
      intro p hp
      rw [List.mem_singleton] at hp
      subst hp
      refine ⟨?_, ?_, ?_, ?_⟩ <;> norm_num [cornerPlacement])

/-- Lawful–chaotic fold is unchanged when two lists agree pointwise on
positions. -/
theorem foldl_x_eq_of_agree :
    ∀ {ps qs : List Placement}, List.Forall₂ CommittedAgree ps qs →
      ∀ a : ℚ, List.foldl (fun s p => s + (p.position.x - 50) * 2) a ps =
        List.foldl (fun s p => s + (p.position.x - 50) * 2) a qs := by
  intro ps qs h
  induction h with
  | nil => intro a; rfl
  | cons hpq _ ih =>
      intro a
      simp only [List.foldl_cons]
      rw [hpq.2.1]
      exact ih _

/-- Good–evil fold is unchanged when two lists agree pointwise on
positions. -/
theorem foldl_y_eq_of_agree :
    ∀ {ps qs : List Placement}, List.Forall₂ CommittedAgree ps qs →
      ∀ a : ℚ, List.foldl (fun s p => s + (p.position.y - 50) * 2) a ps =
        List.foldl (fun s p => s + (p.position.y - 50) * 2) a qs := by
  intro ps qs h
  induction h with
  | nil => intro a; rfl
  | cons hpq _ ih =>
      intro a
      simp only [List.foldl_cons]
      rw [hpq.2.1]
      exact ih _

/-- The hashed projection is unchanged when two lists agree pointwise on
the committed fields. -/
theorem map_committedEntry_of_agree :
    ∀ {ps qs : List Placement}, List.Forall₂ CommittedAgree ps qs →
      ps.map committedEntryOf = qs.map committedEntryOf := by
  intro ps qs h
  induction h with
  | nil => rfl
  | cons hpq _ ih =>
      simp only [List.map_cons, ih, List.cons.injEq, and_true]
      simp [committedEntryOf, hpq.1, hpq.2.1, hpq.2.2]

/-- C9: the contract reduction is a function of the committed fields
alone — two placement lists that agree pointwise on username, position
and isAiPlaced produce identical PersonaData regardless of id, src,
timestamp, loading, dragging and analysis. -/
theorem processPlacements_committed_fields_only (ps qs : List Placement)
    (h : List.Forall₂ CommittedAgree ps qs) :
    processPlacementsForContract ps = processPlacementsForContract qs := by
  have hlen : ps.length = qs.length := h.length_eq
  have hLC : totalLawfulChaotic ps = totalLawfulChaotic qs := foldl_x_eq_of_agree h 0
  have hGE : totalGoodEvil ps = totalGoodEvil qs := foldl_y_eq_of_agree h 0
  have hmap := map_committedEntry_of_agree h
  rw [processPlacementsForContract, processPlacementsForContract, hlen, hLC, hGE, hmap]

/-- Witness for C9 at two placements differing in every non-committed
field. -/
theorem processPlacements_committed_fields_only_witness :
    processPlacementsForContract [agreeLeft] = processPlacementsForContract [agreeRight] :=
  processPlacements_committed_fields_only [agreeLeft] [agreeRight]
    (List.Forall₂.cons ⟨rfl, rfl, rfl⟩ List.Forall₂.nil)

/-- Every error result of the uncached analysis path carries the neutral
scores (0, 0). -/
theorem analyseUserUncached_error_scores (env : AnalyseEnv) (u : String) :
    (analyseUserUncached env u).isError = true →
    (analyseUserUncached env u).lawfulChaotic = 0 ∧ (analyseUserUncached env u).goodEvil = 0 := by
  obtain ⟨cached, profileResult, tweetsResult, generate⟩ := env
  unfold analyseUserUncached
  dsimp only
  cases profileResult with
  | error e => simp
  | ok po =>
      cases po with
      | none => simp
      | some prof =>
          cases tweetsResult with
          | error e => simp
          | ok tweets =>
              dsimp only
              split
              · simp
              · cases generate with
                | error e => simp
                | ok a => simp

/-- A failing external dependency makes the uncached path return an error
result. -/
theorem analyseUserUncached_failure (env : AnalyseEnv) (u : String)
    (hf : exceptFailed env.profileResult = true ∨ env.profileResult = Except.ok none ∨
          exceptFailed env.tweetsResult = true ∨ insufficientDataFor env = true ∨
          exceptFailed env.generate = true) :
    (analyseUserUncached env u).isError = true := by
  obtain ⟨cached, profileResult, tweetsResult, generate⟩ := env
  dsimp only at hf
  unfold analyseUserUncached
  dsimp only
  cases profileResult with
  | error e => simp
  | ok po =>
      cases po with
      | none => simp
      | some prof =>
          cases tweetsResult with
          | error e => simp
          | ok tweets =>
              dsimp only
              rcases hf with h | h | h | h | h
              · simp [exceptFailed] at h
              · simp at h
              · simp [exceptFailed] at h
              · simp only [insufficientDataFor] at h
                rw [if_pos h]
              · cases generate with
                | error e => split <;> simp
                | ok a => simp [exceptFailed] at h

/-- C3: `analyseUser` is total by construction (it is a plain function of
its environment into well-formed result records); every result flagged as
an error carries the neutral scores (0, 0); and on a cache miss every
failure of its dependencies — a throwing profile fetch, a missing
profile, a throwing tweet collection, insufficient profile data (no
usable tweets, no bio, no name), or a throwing model invocation — yields
a result with isError = true rather than an exception. -/
theorem analyseUser_error_paths (env : AnalyseEnv) (username : String) :
    ((analyseUser env username).isError = true →
      (analyseUser env username).lawfulChaotic = 0 ∧ (analyseUser env username).goodEvil = 0) ∧
    (cacheHitValid env.cached = false →
      (exceptFailed env.profileResult = true ∨ env.profileResult = Except.ok none ∨
       exceptFailed env.tweetsResult = true ∨ insufficientDataFor env = true ∨
       exceptFailed env.generate = true) →
      (analyseUser env username).isError = true) := by
  constructor
  · intro hErr
    unfold analyseUser at hErr ⊢
    cases hc : env.cached with
    | none =>
        rw [hc] at hErr
        exact analyseUserUncached_error_scores env _ hErr
    | some c =>
        rw [hc] at hErr
        dsimp only at hErr ⊢
        by_cases hcv : (c.explanation != "" && !c.isError) = true
        · rw [if_pos hcv] at hErr
          simp at hErr
        · rw [if_neg hcv] at hErr ⊢
          exact analyseUserUncached_error_scores env _ hErr
  · intro hmiss hfail
    unfold analyseUser
    cases hc : env.cached with
    | none =>
        exact analyseUserUncached_failure env _ hfail
    | some c =>
        rw [hc] at hmiss
        simp only [cacheHitValid] at hmiss
        dsimp only
        rw [if_neg (by simp [hmiss])]
        exact analyseUserUncached_failure env _ hfail

/-- Witness for C3 at two cache-missing environments: one whose profile
fetch throws, and one whose profile succeeds but has no usable tweets,
no bio and no name (the insufficient-data path). -/
theorem analyseUser_error_paths_witness :
    ((analyseUser fetchFailEnv "alice").isError = true ∧
     (analyseUser fetchFailEnv "alice").lawfulChaotic = 0 ∧
     (analyseUser fetchFailEnv "alice").goodEvil = 0) ∧
    ((analyseUser insufficientEnv "alice").isError = true ∧
     (analyseUser insufficientEnv "alice").lawfulChaotic = 0 ∧
     (analyseUser insufficientEnv "alice").goodEvil = 0) :=
  have hE1 : (analyseUser fetchFailEnv "alice").isError = true :=
    (analyseUser_error_paths fetchFailEnv "alice").2 rfl (Or.inl rfl)
  have hE2 : (analyseUser insufficientEnv "alice").isError = true :=
    (analyseUser_error_paths insufficientEnv "alice").2 rfl
      (Or.inr (Or.inr (Or.inr (Or.inl rfl))))
  ⟨⟨hE1, ((analyseUser_error_paths fetchFailEnv "alice").1 hE1).1,
      ((analyseUser_error_paths fetchFailEnv "alice").1 hE1).2⟩,
    ⟨hE2, ((analyseUser_error_paths insufficientEnv "alice").1 hE2).1,
      ((analyseUser_error_paths insufficientEnv "alice").1 hE2).2⟩⟩

/-- C4: a validated AI-mode addPlacement whose analysis result is an
error (or lacks an explanation) rolls the optimistic insert back — the
final list is the original list stripped of the provisional id, no
element of the final list carries the provisional id, and an error toast
is surfaced. -/
theorem addPlacement_ai_error_rollback (env : AddPlacementEnv) (images : List Placement)
    (username : String)
    (hclean : cleanUsernameOf username ≠ "")
    (hdup : isUsernameDuplicate images (cleanUsernameOf username) = false)
    (hres : (env.analyse (cleanUsernameOf username)).isError = true ∨
            (env.analyse (cleanUsernameOf username)).explanation = "") :
    (addPlacement env images username true).1 =
      images.filter (fun img => img.id != tempIdFor true env.now) ∧
    (∀ p ∈ (addPlacement env images username true).1, p.id ≠ tempIdFor true env.now) ∧
    (addPlacement env images username true).2 ≠ [] := by
  have key : addPlacement env images username true =
      ((images ++ [provisionalPlacement env true (cleanUsernameOf username)]).filter
         (fun img => img.id != tempIdFor true env.now),
       ["Analysis failed for @" ++ cleanUsernameOf username ++ "."]) := by
    simp only [addPlacement]
    rw [if_neg hclean]
    rw [if_neg (by simp [hdup])]
    rw [if_pos trivial]
    rw [if_pos hres]
  refine ⟨?_, ?_, ?_⟩
  · rw [key]
    have hprov : (provisionalPlacement env true (cleanUsernameOf username)).id =
        tempIdFor true env.now := rfl
    simp [List.filter_append, hprov]
  · intro p hp
    rw [key] at hp
    simp only [List.mem_filter] at hp
    simpa using hp.2
  · rw [key]
    simp

/-- Witness for C4 at an empty chart and an error-returning analyser. -/
theorem addPlacement_ai_error_rollback_witness :
    (addPlacement aiFailEnv [] "alice" true).1 =
      ([] : List Placement).filter (fun img => img.id != tempIdFor true aiFailEnv.now) ∧
    (∀ p ∈ (addPlacement aiFailEnv [] "alice" true).1, p.id ≠ tempIdFor true aiFailEnv.now) ∧
    (addPlacement aiFailEnv [] "alice" true).2 ≠ [] :=
  addPlacement_ai_error_rollback aiFailEnv [] "alice" (by decide) rfl (Or.inl rfl)

end Verigrant
